import Mathlib

/-!
# Verification of the credit ledger and premium authorization gate

Shallow embedding of the credit ledger (`src/lib/payment-store.ts`) and of the
premium Authorization Gate of the generation endpoint, together with proofs of
the specified properties.

The ledger is embedded directly from `src/lib/payment-store.ts`: the SQLite
tables `credits (user_login → remaining)` and
`credit_events (stripe_session_id → user_login, awarded_at)` become association
lists, `INSERT … ON CONFLICT … DO UPDATE` becomes `upsert`, and
`INSERT OR IGNORE` becomes a lookup-guarded insert.  `remaining` is an SQLite
INTEGER, embedded as `Int` so that non-negativity is a proved invariant rather
than a typing artifact.

The principal-based Authorization Gate (premium decision procedure) is not
present under `src/` — `src/server/routes/generate.ts` is the superseded
session-keyed variant (it has no notion of an authenticated principal and its
call `awardCredits(sessionId)` does not even match the ledger's current
two-argument signature), while its behavioural tests
(`src/test/generate-premium.test.js`) exercise the principal-based version.
The gate is therefore modelled from the spec (§4.2, §6) below.
-/

namespace PaymentStore

/-- `CREDITS_PER_PURCHASE` from `src/lib/payment-store.ts`:
`Number(process.env.CREDITS_PER_PURCHASE) || 5`; the default bundle size 5. -/
def CREDITS_PER_PURCHASE : Nat := 5

/-- State of the SQLite credit store: the `credits` table
(`user_login TEXT PRIMARY KEY, remaining INTEGER`) and the `credit_events`
table (`stripe_session_id TEXT PRIMARY KEY, user_login TEXT, awarded_at TEXT`),
each as an association list keyed by its primary key. -/
structure CreditStore where
  credits : List (String × Int)
  events : List (String × (String × String))
deriving DecidableEq

/-- The store after `clearCreditStore()` (and the initial store): no rows. -/
def clearedStore : CreditStore := ⟨[], []⟩

/-- `INSERT … VALUES (?, ?) ON CONFLICT(key) DO UPDATE SET v = excluded.v`
on an association list: replace the binding of `k` if present, else insert. -/
def upsert (k : String) (v : Int) : List (String × Int) → List (String × Int)
  | [] => [(k, v)]
  | (k₀, v₀) :: rest => if k₀ = k then (k, v) :: rest else (k₀, v₀) :: upsert k v rest

/-- `getCredits(userLogin)` from `src/lib/payment-store.ts`:
`stmtGetCredits().get(userLogin)?.remaining ?? 0`. -/
def getCredits (userLogin : String) (s : CreditStore) : Int :=
  (s.credits.lookup userLogin).getD 0

/-- `awardCredits(userLogin, stripeSessionId, count)` from
`src/lib/payment-store.ts`.  The `INSERT OR IGNORE` into `credit_events` is the
lookup guard: if a row for `stripeSessionId` exists, `result.changes === 0` and
the call returns without touching balances; otherwise the event row is inserted
and `count` is added to the user's balance.  `awardedAt`
(`new Date().toISOString()` in the source) is passed explicitly. -/
def awardCredits (userLogin stripeSessionId awardedAt : String) (count : Nat)
    (s : CreditStore) : CreditStore :=
  if (s.events.lookup stripeSessionId).isSome then s
  else
    { credits := upsert userLogin (getCredits userLogin s + (count : Int)) s.credits,
      events := (stripeSessionId, (userLogin, awardedAt)) :: s.events }

/-- `deductCredit(userLogin)` from `src/lib/payment-store.ts`: read the
balance; if `remaining <= 0` return `false` leaving the store unchanged, else
write `remaining - 1` and return `true`. -/
def deductCredit (userLogin : String) (s : CreditStore) : Bool × CreditStore :=
  let remaining := getCredits userLogin s
  if remaining ≤ 0 then (false, s)
  else (true, { s with credits := upsert userLogin (remaining - 1) s.credits })

/-- A ledger operation: the two mutators of the credit store. -/
inductive LedgerOp
  | award (userLogin stripeSessionId awardedAt : String) (count : Nat)
  | deduct (userLogin : String)

/-- Execute one ledger operation on the store. -/
def execOp : LedgerOp → CreditStore → CreditStore
  | LedgerOp.award u ref t n, s => awardCredits u ref t n s
  | LedgerOp.deduct u, s => (deductCredit u s).2

/-- Execute a sequence of ledger operations, first operation first. -/
def execOps : List LedgerOp → CreditStore → CreditStore
  | [], s => s
  | op :: rest, s => execOps rest (execOp op s)

theorem lookup_upsert_self (k : String) (v : Int) (l : List (String × Int)) :
    (upsert k v l).lookup k = some v := by
  induction l with
  | nil => simp [upsert, List.lookup]
  | cons hd tl ih =>
    obtain ⟨k₀, v₀⟩ := hd
    by_cases h : k₀ = k
    · simp [upsert, h, List.lookup]
    · have hbeq : (k == k₀) = false := by
        simp [beq_iff_eq]
        exact fun he => h he.symm
      simp [upsert, h, List.lookup, hbeq, ih]

theorem lookup_upsert_other (k u : String) (v : Int) (l : List (String × Int))
    (h : u ≠ k) : (upsert k v l).lookup u = l.lookup u := by
  have hbeq : (u == k) = false := by simp [beq_iff_eq, h]
  induction l with
  | nil => simp [upsert, List.lookup, hbeq]
  | cons hd tl ih =>
    obtain ⟨k₀, v₀⟩ := hd
    by_cases hk : k₀ = k
    · subst hk
      simp [upsert, List.lookup, hbeq]
    · by_cases hu : u = k₀
      · subst hu
        simp [upsert, hk, List.lookup]
      · have hbeq₀ : (u == k₀) = false := by simp [beq_iff_eq, hu]
        simp [upsert, hk, List.lookup, hbeq₀, ih]

theorem getCredits_awardCredits (u p ref t : String) (n : Nat) (s : CreditStore) :
    getCredits u (awardCredits p ref t n s) =
      if (s.events.lookup ref).isSome then getCredits u s
      else if u = p then getCredits p s + (n : Int) else getCredits u s := by
  by_cases hev : (s.events.lookup ref).isSome
  · simp [awardCredits, hev]
  · by_cases hu : u = p
    · subst hu
      simp [awardCredits, hev, getCredits, lookup_upsert_self]
    · simp [awardCredits, hev, getCredits, lookup_upsert_other _ _ _ _ hu, hu]

theorem getCredits_deductCredit (u p : String) (s : CreditStore) :
    getCredits u (deductCredit p s).2 =
      if getCredits p s ≤ 0 then getCredits u s
      else if u = p then getCredits p s - 1 else getCredits u s := by
  by_cases hle : getCredits p s ≤ 0
  · rw [if_pos hle]
    simp only [deductCredit]
    rw [if_pos hle]
  · rw [if_neg hle]
    by_cases hu : u = p
    · subst hu
      simp only [deductCredit]
      rw [if_neg hle]
      simp [getCredits, lookup_upsert_self]
    · simp only [deductCredit]
      rw [if_neg hle, if_neg hu]
      simp [getCredits, lookup_upsert_other _ _ _ _ hu]

/-- All balances in the store are non-negative. -/
def NonNeg (s : CreditStore) : Prop := ∀ u : String, 0 ≤ getCredits u s

theorem nonNeg_clearedStore : NonNeg clearedStore := by
  intro u
  simp [clearedStore, getCredits, List.lookup]

theorem nonNeg_awardCredits (p ref t : String) (n : Nat) (s : CreditStore)
    (h : NonNeg s) : NonNeg (awardCredits p ref t n s) := by
  intro u
  rw [getCredits_awardCredits]
  by_cases hev : (s.events.lookup ref).isSome
  · simp [hev]
    exact h u
  · by_cases hu : u = p
    · simp [hev, hu]
      have := h p
      omega
    · simp [hev, hu]
      exact h u

theorem nonNeg_deductCredit (p : String) (s : CreditStore)
    (h : NonNeg s) : NonNeg (deductCredit p s).2 := by
  intro u
  rw [getCredits_deductCredit]
  by_cases hle : getCredits p s ≤ 0
  · simp [hle]
    exact h u
  · by_cases hu : u = p
    · simp [hle, hu]
      omega
    · simp [hle, hu]
      exact h u

theorem nonNeg_execOp (op : LedgerOp) (s : CreditStore) (h : NonNeg s) :
    NonNeg (execOp op s) := by
  cases op with
  | award u ref t n => exact nonNeg_awardCredits u ref t n s h
  | deduct u => exact nonNeg_deductCredit u s h

theorem nonNeg_execOps (ops : List LedgerOp) (s : CreditStore) (h : NonNeg s) :
    NonNeg (execOps ops s) := by
  induction ops generalizing s with
  | nil => exact h
  | cons op rest ih => exact ih (execOp op s) (nonNeg_execOp op s h)

theorem award_noop_of_recorded (p ref t : String) (n : Nat) (s : CreditStore)
    (h : (s.events.lookup ref).isSome) : awardCredits p ref t n s = s := by
  simp [awardCredits, h]

theorem events_recorded_awardCredits (p ref t : String) (n : Nat) (s : CreditStore) :
    (((awardCredits p ref t n s).events).lookup ref).isSome := by
  by_cases hev : (s.events.lookup ref).isSome
  · simp [awardCredits, hev]
  · simp [awardCredits, hev, List.lookup]

theorem events_deductCredit (u : String) (s : CreditStore) :
    (deductCredit u s).2.events = s.events := by
  by_cases hle : getCredits u s ≤ 0 <;> simp [deductCredit, hle]

theorem events_recorded_execOp (op : LedgerOp) (ref : String) (s : CreditStore)
    (h : (s.events.lookup ref).isSome) :
    (((execOp op s).events).lookup ref).isSome := by
  cases op with
  | award u r t n =>
    by_cases hev : (s.events.lookup r).isSome
    · simpa [execOp, awardCredits, hev] using h
    · cases hbe : (ref == r) <;> simp [execOp, awardCredits, hev, List.lookup, hbe, h]
  | deduct u =>
    simpa [execOp, events_deductCredit] using h

theorem events_recorded_execOps (ops : List LedgerOp) (ref : String) (s : CreditStore)
    (h : (s.events.lookup ref).isSome) :
    (((execOps ops s).events).lookup ref).isSome := by
  induction ops generalizing s with
  | nil => exact h
  | cons op rest ih => exact ih (execOp op s) (events_recorded_execOp op ref s h)

end PaymentStore

namespace PaymentStore

/-- C4: `award(p, ref, n)` called twice with identical arguments leaves the
whole store (and hence p's balance) exactly as after a single call: the second
call hits the `INSERT OR IGNORE` guard (a `CreditEvent` row for `ref` already
exists) and is a no-op.  The timestamps of the two calls are arbitrary. -/
theorem awardCredits_idempotent (p ref : String) (n : Nat) (t₁ t₂ : String)
    (s : CreditStore) :
    awardCredits p ref t₂ n (awardCredits p ref t₁ n s) = awardCredits p ref t₁ n s :=
  award_noop_of_recorded p ref t₂ n _ (events_recorded_awardCredits p ref t₁ n s)

/-- C5: after any sequence of `award`/`deduct` operations starting from the
empty (cleared) store, every principal's remaining balance is non-negative; in
particular no sequence of deducts drives a balance below 0.  Since every prefix
of a sequence is itself a sequence, this covers the state after each
operation. -/
theorem ledger_balances_nonneg (ops : List LedgerOp) (u : String) :
    0 ≤ getCredits u (execOps ops clearedStore) :=
  nonNeg_execOps ops clearedStore nonNeg_clearedStore u

/-- C6: `deduct(principal)` returns `true` iff the current balance is strictly
positive; on success it decrements that balance by exactly 1; on a zero balance
it returns `false` — a plain boolean outcome — and leaves the store
unchanged. -/
theorem deductCredit_spec (u : String) (s : CreditStore) :
    ((deductCredit u s).1 = true ↔ 0 < getCredits u s)
    ∧ (0 < getCredits u s →
        getCredits u (deductCredit u s).2 = getCredits u s - 1)
    ∧ (getCredits u s = 0 → deductCredit u s = (false, s)) := by
  refine ⟨?_, ?_, ?_⟩
  · by_cases hle : getCredits u s ≤ 0
    · simp [deductCredit, hle]
    · simp [deductCredit, hle]
      omega
  · intro hpos
    rw [getCredits_deductCredit]
    simp [show ¬getCredits u s ≤ 0 from by omega]
  · intro hz
    simp [deductCredit, hz]

/-- Witness for C6 at concrete stores: deducting from a balance of 1 succeeds
and leaves 0; deducting from the empty store fails and is the identity. -/
theorem deductCredit_spec_witness :
    ((deductCredit "alice" ⟨[("alice", 1)], []⟩).1 = true ↔
        0 < getCredits "alice" ⟨[("alice", 1)], []⟩)
    ∧ getCredits "alice" (deductCredit "alice" ⟨[("alice", 1)], []⟩).2 =
        getCredits "alice" ⟨[("alice", 1)], []⟩ - 1
    ∧ deductCredit "bob" clearedStore = (false, clearedStore) :=
  ⟨(deductCredit_spec "alice" ⟨[("alice", 1)], []⟩).1,
   (deductCredit_spec "alice" ⟨[("alice", 1)], []⟩).2.1 (by decide),
   (deductCredit_spec "bob" clearedStore).2.2 (by decide)⟩

/-- C10: once a first `award(p₁, ref, n)` has recorded `ref` in the
idempotency log, any later `award(p₂, ref, m)` — after any interleaving of
further ledger operations, for any principal `p₂` and any count `m` — leaves
the store (hence every balance) unchanged: the `credit_events` primary key is
the payment reference alone, so later calls' principal and count are
ignored. -/
theorem award_later_noop_after_first (p₁ ref t₁ : String) (n : Nat)
    (s : CreditStore) (ops : List LedgerOp) (p₂ t₂ : String) (m : Nat) :
    awardCredits p₂ ref t₂ m (execOps ops (awardCredits p₁ ref t₁ n s)) =
      execOps ops (awardCredits p₁ ref t₁ n s) :=
  award_noop_of_recorded p₂ ref t₂ m _
    (events_recorded_execOps ops ref _ (events_recorded_awardCredits p₁ ref t₁ n s))

end PaymentStore

namespace Gate

open PaymentStore

/-- A JSON field value in the request body, as far as the gate inspects it:
the gate only cares whether `_stripe_session_id` is a string and whether
`_premium` is the boolean `true`; every other JSON value is `otherVal`. -/
inductive FieldVal
  | str (s : String)
  | boolVal (b : Bool)
  | otherVal
deriving DecidableEq

/-- Result of the payment verifier's retrieve-session capability
(spec §6: `retrieve(sessionRef) -> { paid, ownerPrincipal }`).
`unavailable` models every failure mode of the slow-path round trip: verifier
client not configured, session not found, API error, or timeout — all of which
the gate must treat as "not verified" (spec §5). -/
inductive VerifierResult
  | unavailable
  | session (paid : Bool) (ownerPrincipal : Option String)
deriving DecidableEq

/-- Gate decision.  `run premium payload creditsRemaining` means authorization
is finalized, exactly one job is created (kind `generate-premium` when
`premium`, else `generate`), the stripped `payload` is handed to the pipeline,
and the 202 response carries `job_id`, `premium`, and — for premium runs —
`credits_remaining`.  `reject status message` means the request is answered
with that HTTP status and no job is created. -/
inductive GateOutcome
  | reject (status : Nat) (message : String)
  | run (premium : Bool) (payload : List (String × FieldVal))
      (creditsRemaining : Option Int)
deriving DecidableEq

/-- Modelled from the spec: the payment-session reference carried by the
request body — the `_payment_session_id` / `_stripe_session_id` control field,
taken only when it is a string. -/
def sessionIdOf (body : List (String × FieldVal)) : Option String :=
  match body.lookup "_stripe_session_id" with
  | some (FieldVal.str v) => some v
  | _ => none

/-- Modelled from the spec: the explicit premium-request flag — the body's
`_premium` control field, requesting premium when it is the boolean `true`. -/
def premiumFlagOf (body : List (String × FieldVal)) : Bool :=
  match body.lookup "_premium" with
  | some (FieldVal.boolVal true) => true
  | _ => false

/-- Modelled from the spec: premium is requested when the payment-session
reference or the premium flag is present (spec §4.2 state `PremiumRequested`). -/
def premiumRequested (body : List (String × FieldVal)) : Bool :=
  (sessionIdOf body).isSome || premiumFlagOf body

/-- Modelled from the spec: the Gate strips the payment-session-reference and
premium-flag control fields from the payload before handing it to the pipeline
and job-creation collaborator (spec §4.2). -/
def stripPayload (body : List (String × FieldVal)) : List (String × FieldVal) :=
  body.filter fun kv => ¬(kv.1 = "_stripe_session_id" ∨ kv.1 = "_premium")

/-- Modelled from the spec: the premium Authorization Gate's decision
procedure (spec §4.2), absent from `src/` — `src/server/routes/generate.ts` is
the superseded session-keyed variant, and the principal-based behaviour is
fixed by the spec's state table and by `src/test/generate-premium.test.js`.
Arguments: request `body`, resolved authenticated `principal` (none when not
logged in), the external `verifier`, the current time `now` (for the ledger's
`awarded_at` column), and the credit store.  Returns the decision and the
resulting store:
* neither reference nor flag present → `FreeRun`, ledger untouched;
* premium requested, no principal → `Reject(401, "login required")`;
* fast path: `deduct(principal)` succeeds → `PremiumRun`, no verifier call;
* slow path: no reference, verifier unavailable, session not paid, or
  recorded owner ≠ principal → `Reject(402)`; otherwise
  `award(principal, ref)` then `deduct(principal)`; if the deduct still
  fails → `Reject(402)`, else `PremiumRun`. -/
def gate (body : List (String × FieldVal)) (principal : Option String)
    (verifier : String → VerifierResult) (now : String) (s : CreditStore) :
    GateOutcome × CreditStore :=
  if premiumRequested body = false then
    (GateOutcome.run false (stripPayload body) none, s)
  else
    match principal with
    | none => (GateOutcome.reject 401 "login required", s)
    | some p =>
      let fast := deductCredit p s
      if fast.1 then
        (GateOutcome.run true (stripPayload body) (some (getCredits p fast.2)), fast.2)
      else
        match sessionIdOf body with
        | none => (GateOutcome.reject 402 "payment required", s)
        | some ref =>
          match verifier ref with
          | VerifierResult.unavailable =>
            (GateOutcome.reject 402 "payment required", s)
          | VerifierResult.session paid owner =>
            if paid = false then
              (GateOutcome.reject 402 "payment required", s)
            else if owner ≠ some p then
              (GateOutcome.reject 402 "payment required", s)
            else
              let s₂ := awardCredits p ref now CREDITS_PER_PURCHASE s
              let slow := deductCredit p s₂
              if slow.1 then
                (GateOutcome.run true (stripPayload body)
                  (some (getCredits p slow.2)), slow.2)
              else
                (GateOutcome.reject 402 "no premium credits remaining", s₂)

theorem lookup_stripPayload (k : String)
    (hk : k = "_stripe_session_id" ∨ k = "_premium")
    (body : List (String × FieldVal)) : (stripPayload body).lookup k = none := by
  induction body with
  | nil => rfl
  | cons hd tl ih =>
    obtain ⟨k₀, v₀⟩ := hd
    by_cases h₀ : k₀ = "_stripe_session_id" ∨ k₀ = "_premium"
    · have hstep : stripPayload ((k₀, v₀) :: tl) = stripPayload tl := by
        rcases h₀ with h₀ | h₀ <;> subst h₀ <;>
          simp [stripPayload, List.filter_cons]
      rw [hstep]
      exact ih
    · obtain ⟨h₁, h₂⟩ := not_or.mp h₀
      have hstep : stripPayload ((k₀, v₀) :: tl) = (k₀, v₀) :: stripPayload tl := by
        simp [stripPayload, List.filter_cons, h₁, h₂]
      have hne : (k == k₀) = false := by
        rcases hk with hk | hk <;> subst hk <;>
          simp only [beq_eq_false_iff_ne, ne_eq] <;>
          exact fun he => h₀ (by simp [he.symm])
      rw [hstep]
      simp only [List.lookup, hne]
      exact ih

theorem gate_run_payload (body : List (String × FieldVal)) (principal : Option String)
    (verifier : String → VerifierResult) (now : String) (s : CreditStore)
    (pr : Bool) (pl : List (String × FieldVal)) (cr : Option Int) (s₁ : CreditStore)
    (h : gate body principal verifier now s = (GateOutcome.run pr pl cr, s₁)) :
    pl = stripPayload body := by
  simp only [gate] at h
  split at h
  · simp only [Prod.mk.injEq, GateOutcome.run.injEq] at h
    exact h.1.2.1.symm
  · split at h
    · simp at h
    · split at h
      · simp only [Prod.mk.injEq, GateOutcome.run.injEq] at h
        exact h.1.2.1.symm
      · split at h
        · simp at h
        · split at h
          · simp at h
          · split at h
            · simp at h
            · split at h
              · simp at h
              · split at h
                · simp only [Prod.mk.injEq, GateOutcome.run.injEq] at h
                  exact h.1.2.1.symm
                · simp at h

/-- The verifier of the Alice scenario: session `cs_1` is paid and recorded as
owned by `alice`; every other reference is unknown. -/
def verifierAlice : String → VerifierResult := fun ref =>
  if ref = "cs_1" then VerifierResult.session true (some "alice")
  else VerifierResult.unavailable

/-- The request body of the Bob scenario: evidence plus `_premium: true` and
no payment-session reference. -/
def bobBody : List (String × FieldVal) :=
  [("evidence", FieldVal.otherVal), ("_premium", FieldVal.boolVal true)]

end Gate

namespace Gate

open PaymentStore

/-- Claim C1: whenever the slow verification path executes (the fast-path
deduct failed, i.e. the principal's balance is not positive) and the verifier
reports the session paid but with a recorded owner different from the current
authenticated principal, the gate rejects with 402 and the store is unchanged
— no credit is consumed and none is awarded. -/
theorem slowpath_owner_mismatch_rejects
    (body : List (String × FieldVal)) (verifier : String → VerifierResult)
    (now : String) (s : CreditStore) (p ref : String) (owner : Option String)
    (href : sessionIdOf body = some ref)
    (hbal : getCredits p s ≤ 0)
    (hver : verifier ref = VerifierResult.session true owner)
    (hown : owner ≠ some p) :
    gate body (some p) verifier now s =
      (GateOutcome.reject 402 "payment required", s) := by
  have hreq : premiumRequested body = true := by
    simp [premiumRequested, href]
  have hfast : deductCredit p s = (false, s) := by
    simp [deductCredit, hbal]
  simp [gate, hreq, hfast, href, hver, hown]

/-- Witness for C1: the verifier reports `cs_1` paid with owner `eve`; the
authenticated principal `dave` (balance 0, so the slow path executes) gets
402 and the store is untouched. -/
theorem slowpath_owner_mismatch_rejects_witness :
    gate [("contributions", FieldVal.otherVal),
        ("_stripe_session_id", FieldVal.str "cs_1")]
      (some "dave") (fun _ => VerifierResult.session true (some "eve")) "t0"
      clearedStore =
      (GateOutcome.reject 402 "payment required", clearedStore) :=
  slowpath_owner_mismatch_rejects _ _ _ _ "dave" "cs_1" (some "eve")
    (by decide) (by decide) rfl (by decide)

/-- Claim C2: when premium is requested (flag or payment-session reference
present) but no authenticated principal is resolved, the gate answers
`401 "login required"` and returns the store unchanged — no award, no deduct,
and (the outcome being a rejection) no job is created. -/
theorem premium_unauthenticated_rejects
    (body : List (String × FieldVal)) (verifier : String → VerifierResult)
    (now : String) (s : CreditStore)
    (h : premiumRequested body = true) :
    gate body none verifier now s =
      (GateOutcome.reject 401 "login required", s) := by
  simp [gate, h]

/-- Witness for C2: an unauthenticated caller sending `_premium: true` gets
401 and the cleared store stays cleared. -/
theorem premium_unauthenticated_rejects_witness :
    gate [("timeframe", FieldVal.otherVal), ("_premium", FieldVal.boolVal true)]
      none (fun _ => VerifierResult.unavailable) "t0" clearedStore =
      (GateOutcome.reject 401 "login required", clearedStore) :=
  premium_unauthenticated_rejects _ _ _ _ (by decide)

/-- Claim C3: every accepted request (a `run` outcome, free or premium) hands
the pipeline and job-creation collaborator a payload that contains neither the
payment-session-reference key nor the premium-flag key. -/
theorem accepted_payload_strips_control_fields
    (body : List (String × FieldVal)) (principal : Option String)
    (verifier : String → VerifierResult) (now : String) (s : CreditStore)
    (pr : Bool) (pl : List (String × FieldVal)) (cr : Option Int)
    (s₁ : CreditStore)
    (h : gate body principal verifier now s = (GateOutcome.run pr pl cr, s₁)) :
    pl.lookup "_stripe_session_id" = none ∧ pl.lookup "_premium" = none := by
  have hpl := gate_run_payload body principal verifier now s pr pl cr s₁ h
  subst hpl
  exact ⟨lookup_stripPayload _ (Or.inl rfl) body,
    lookup_stripPayload _ (Or.inr rfl) body⟩

/-- Witness for C3: a request carrying both control fields is accepted on the
fast path and the pipeline payload `[("x", "e")]` contains neither key. -/
theorem accepted_payload_strips_control_fields_witness :
    List.lookup "_stripe_session_id" [(("x" : String), FieldVal.str "e")] = none
    ∧ List.lookup "_premium" [(("x" : String), FieldVal.str "e")] = none :=
  accepted_payload_strips_control_fields
    [("x", FieldVal.str "e"), ("_premium", FieldVal.boolVal true),
      ("_stripe_session_id", FieldVal.str "cs")]
    (some "alice") (fun _ => VerifierResult.unavailable) "t"
    ⟨[("alice", 1)], []⟩
    true [("x", FieldVal.str "e")] (some 0) ⟨[("alice", 0)], []⟩ (by decide)

/-- Claim C7: principal `alice` with balance 0 sends an accepted request with
`_stripe_session_id = "cs_1"`; the verifier reports it paid and owned by
`alice`.  The gate awards `CREDITS_PER_PURCHASE = 5` credits, deducts 1, and
the outcome is a premium run (202 with `job_id`, `premium: true`) carrying
`credits_remaining = 4`; the store records balance 4 and the credit event. -/
theorem alice_first_purchase_scenario :
    gate [("evidence", FieldVal.otherVal), ("_stripe_session_id", FieldVal.str "cs_1")]
      (some "alice") verifierAlice "t0" clearedStore =
      (GateOutcome.run true [("evidence", FieldVal.otherVal)] (some 4),
       ⟨[("alice", 4)], [("cs_1", ("alice", "t0"))]⟩) := by
  decide

/-- Claim C8: principal `bob` with balance 5 makes five successive premium
requests via `_premium: true` with no payment-session reference: each succeeds
on the fast path, deducting exactly one credit (5→4→3→2→1→0), and the sixth
request is rejected with 402.  The verifier is universally quantified and the
results are fixed constants, so no verifier call influences any of the six
outcomes. -/
theorem bob_five_fast_runs_then_rejected (verifier : String → VerifierResult)
    (now : String) :
    gate bobBody (some "bob") verifier now ⟨[("bob", 5)], []⟩ =
      (GateOutcome.run true [("evidence", FieldVal.otherVal)] (some 4),
        ⟨[("bob", 4)], []⟩)
    ∧ gate bobBody (some "bob") verifier now ⟨[("bob", 4)], []⟩ =
      (GateOutcome.run true [("evidence", FieldVal.otherVal)] (some 3),
        ⟨[("bob", 3)], []⟩)
    ∧ gate bobBody (some "bob") verifier now ⟨[("bob", 3)], []⟩ =
      (GateOutcome.run true [("evidence", FieldVal.otherVal)] (some 2),
        ⟨[("bob", 2)], []⟩)
    ∧ gate bobBody (some "bob") verifier now ⟨[("bob", 2)], []⟩ =
      (GateOutcome.run true [("evidence", FieldVal.otherVal)] (some 1),
        ⟨[("bob", 1)], []⟩)
    ∧ gate bobBody (some "bob") verifier now ⟨[("bob", 1)], []⟩ =
      (GateOutcome.run true [("evidence", FieldVal.otherVal)] (some 0),
        ⟨[("bob", 0)], []⟩)
    ∧ gate bobBody (some "bob") verifier now ⟨[("bob", 0)], []⟩ =
      (GateOutcome.reject 402 "payment required", ⟨[("bob", 0)], []⟩) :=
  ⟨rfl, rfl, rfl, rfl, rfl, rfl⟩

/-- Claim C9: on the slow path (fast-path deduct failed), a verifier failure —
client not configured, session not found, API error, or timeout, all embedded
as `VerifierResult.unavailable` — is treated as "not verified": the gate
rejects with 402, never authorizes, never answers 500, and leaves the store
unchanged. -/
theorem slowpath_verifier_unavailable_rejects
    (body : List (String × FieldVal)) (verifier : String → VerifierResult)
    (now : String) (s : CreditStore) (p ref : String)
    (href : sessionIdOf body = some ref)
    (hbal : getCredits p s ≤ 0)
    (hver : verifier ref = VerifierResult.unavailable) :
    gate body (some p) verifier now s =
      (GateOutcome.reject 402 "payment required", s) := by
  have hreq : premiumRequested body = true := by
    simp [premiumRequested, href]
  have hfast : deductCredit p s = (false, s) := by
    simp [deductCredit, hbal]
  simp [gate, hreq, hfast, href, hver]

/-- Witness for C9: a completely unavailable verifier (e.g. client not
configured) on a slow-path request yields 402 with the store untouched. -/
theorem slowpath_verifier_unavailable_rejects_witness :
    gate [("contributions", FieldVal.otherVal),
        ("_stripe_session_id", FieldVal.str "cs_9")]
      (some "carol") (fun _ => VerifierResult.unavailable) "t0" clearedStore =
      (GateOutcome.reject 402 "payment required", clearedStore) :=
  slowpath_verifier_unavailable_rejects _ _ _ _ "carol" "cs_9"
    (by decide) (by decide) rfl

end Gate
